import Mathlib

/-!
Shallow embedding of `src/jobpool/worker.go` (package `jobpool`) of the
ton-http-notification-provider repository: the per-job processing protocol
`process` of a `worker`, and the worker `run` loop.

Go `int64` values (timestamps, retry counters, waits, priorities) are
modelled as unbounded `Int`; none of the verified properties exercises
64-bit wrap-around, and the floating-point conversion
`int64(math.Pow(2, float64 e))` of line 70 is modelled only over the range
where its value is exact (see `pow2floor`).

External collaborators of the worker (the handler registry `m.tm`, the
durable store `m.st.Update`, the backoff policy `m.backoff`, the shared
in-flight counter map `m.working`, the clock `time.Now`) are parameters of
the embedded functions.
-/

namespace Jobpool

/-- Job lifecycle states. Modelled from the spec: the `State` constants
`Waiting | Succeeded | Failed` of the Job Record (the `Job` struct of the
repository is referenced by `worker.go` but its declaration is not under
`src/`). -/
inductive JobState where
  | Waiting
  | Succeeded
  | Failed
deriving DecidableEq, Repr

/-- Modelled from the spec: the Job Record data entity (the `Job` struct of
the repository, referenced by `worker.go` but not declared under `src/`).
`Completed` is a completion timestamp that is unset on a freshly submitted
record; the unset value is modelled as `Option.none`. All other numeric
fields are Go `int64`, modelled as `Int`. -/
structure Job where
  ID : Int
  Topic : String
  Rank : String
  State : JobState
  Retry : Int
  MaxRetry : Int
  RetryBackoff : String
  RetryWait : Int
  After : Int
  Priority : Int
  Completed : Option Int
deriving DecidableEq, Repr

/-- A topic handler, as registered in the manager's topic map `m.tm`:
invoked with the job, returns an error or `none` for success
(`p(job)` on line 55 of `worker.go`). -/
def Handler : Type := Job → Option String

/-- The observability signals fired by the test hooks
`testJobStarted`, `testJobSucceeded`, `testJobFailed`, `testJobRetry`. -/
inductive Signal where
  | started
  | succeeded
  | failed
  | retried
deriving DecidableEq, Repr

/-- Embedding of `int64(math.Pow(2, float64(e)))` on line 70 of
`worker.go`. `math.Pow(2, k)` at an integer `k` is the exact power of two
as a float; the Go conversion to `int64` truncates toward zero, so every
negative exponent yields `0`. The embedding is exact for `e ≤ 62`
(beyond that the Go conversion overflows `int64` with an
implementation-dependent result, a range no claim exercises). -/
def pow2floor (e : Int) : Int :=
  if 0 ≤ e then 2 ^ e.toNat else 0

/-- The wait the retry branch adds to the current time to form `After`
(lines 69-73 of `worker.go`), computed from the pre-increment `Retry`. -/
def retryWaitOf (job : Job) : Int :=
  if job.RetryBackoff = "exponential" then
    job.RetryWait * pow2floor (job.Retry - 1)
  else
    job.RetryWait

/-- The error message of line 49 of `worker.go`
(`fmt.Errorf("no processor found for topic %s", job.Topic)`). -/
def noProcessorMsg (topic : String) : String :=
  "no processor found for topic " ++ topic

/-- The deferred decrement `w.m.working[job.Rank]--` (lines 38-42 of
`worker.go`) applied to the shared in-flight counter map. -/
def decWorking (working : String → Int) (rank : String) : String → Int :=
  fun q => if q = rank then working q - 1 else working q

/-- Everything observable about one `process(job)` call: the final
in-memory record, the record passed to the durable store's `Update`
(`none` when `Update` is not called), the returned error, whether the
topic handler was invoked, the fired observability signals in order, and
the in-flight counter map after the deferred decrement. -/
structure ProcessResult where
  job : Job
  updated : Option Job
  err : Option String
  handlerInvoked : Bool
  signals : List Signal
  working : String → Int

/-- Embedding of `(*worker).process` (lines 37-89 of `worker.go`).
`tm` is the manager's topic map, `clock n` the value of the `n`-th
`time.Now().UnixNano()` sample taken on the executed branch (the retry
branch samples twice: once for `After`, once for `Priority`), `update`
the durable store's `Update` keyed on the record it receives, `backoff`
the manager's backoff policy `(retryCount) -> duration`, and `working`
the shared in-flight counter map on entry. -/
def process (tm : String → Option Handler) (clock : Nat → Int)
    (update : Job → Option String) (backoff : Int → Int)
    (working : String → Int) (job : Job) : ProcessResult :=
  match tm job.Topic with
  | none =>
      { job := job
        updated := none
        err := some (noProcessorMsg job.Topic)
        handlerInvoked := false
        signals := []
        working := decWorking working job.Rank }
  | some p =>
      match p job with
      | some _ =>
          if job.MaxRetry ≤ job.Retry then
            let j : Job := { job with State := JobState.Failed, Completed := some (clock 0) }
            { job := j
              updated := some j
              err := update j
              handlerInvoked := true
              signals := [Signal.started, Signal.failed]
              working := decWorking working job.Rank }
          else
            let j : Job := { job with
              After := clock 0 + retryWaitOf job
              Priority := -(clock 1 + backoff job.Retry)
              State := JobState.Waiting
              Retry := job.Retry + 1 }
            { job := j
              updated := some j
              err := update j
              handlerInvoked := true
              signals := [Signal.started, Signal.retried]
              working := decWorking working job.Rank }
      | none =>
          let j : Job := { job with State := JobState.Succeeded, Completed := some (clock 0) }
          let e := update j
          { job := j
            updated := some j
            err := e
            handlerInvoked := true
            signals := Signal.started :: (if e = none then [Signal.succeeded] else [])
            working := decWorking working job.Rank }

/-- The log line of line 31 of `worker.go`:
`"jobqueue: job %v failed: %v"` with the job ID and the error. -/
def logLine (id : Int) (e : String) : String :=
  "jobqueue: job " ++ toString id ++ " failed: " ++ e

/-- Embedding of `(*worker).run` (lines 26-34 of `worker.go`): consume the
intake feed in order, `process` each job (each delivery carries its own
clock samples), log the error of any failed attempt, and continue with the
next record; the shared in-flight counter map threads through. Returns the
per-job results and the emitted log lines. -/
def run (tm : String → Option Handler) (update : Job → Option String)
    (backoff : Int → Int) :
    (String → Int) → List (Job × (Nat → Int)) → List ProcessResult × List String
  | _, [] => ([], [])
  | working, (job, clock) :: rest =>
      let r := process tm clock update backoff working job
      let rec' := run tm update backoff r.working rest
      (r :: rec'.1,
        (match r.err with
         | some e => [logLine job.ID e]
         | none => []) ++ rec'.2)

/-! Concrete fixtures used by witnesses and counterexamples. -/

/-- A handler that always fails. -/
def cHandlerFail : Handler := fun _ => some "boom"

/-- A handler that always succeeds. -/
def cHandlerOk : Handler := fun _ => none

/-- A topic map registering the failing handler for every topic. -/
def cTmFail : String → Option Handler := fun _ => some cHandlerFail

/-- A topic map registering the succeeding handler for every topic. -/
def cTmOk : String → Option Handler := fun _ => some cHandlerOk

/-- A topic map with no handler registered. -/
def cTmNone : String → Option Handler := fun _ => none

/-- A concrete clock: the n-th `time.Now` sample is `100 + n`. -/
def cClock : Nat → Int := fun n => 100 + Int.ofNat n

/-- A durable store whose `Update` always succeeds. -/
def cUpdateOk : Job → Option String := fun _ => none

/-- A durable store whose `Update` always fails. -/
def cUpdateErr : Job → Option String := fun _ => some "store down"

/-- A concrete backoff policy. -/
def cBackoff : Int → Int := fun r => 10 * r

/-- A concrete in-flight counter map. -/
def cWorking : String → Int := fun _ => 2

/-- A freshly submitted record: `Waiting`, `Completed` unset. -/
def baseJob : Job :=
  { ID := 7, Topic := "t", Rank := "rankA", State := JobState.Waiting,
    Retry := 0, MaxRetry := 3, RetryBackoff := "", RetryWait := 1000,
    After := 11, Priority := 22, Completed := none }

/-- A record whose retry budget is exhausted (`Retry = MaxRetry = 3`). -/
def cJobExhausted : Job := { baseJob with Retry := 3, MaxRetry := 3 }

/-- A record with retries remaining (`Retry = 2 < MaxRetry = 3`). -/
def cJobRetry2 : Job := { baseJob with Retry := 2, MaxRetry := 3 }

/-- Scenario B of the spec: `Retry = 0, MaxRetry = 3,
RetryBackoff = "exponential", RetryWait = 1000`. -/
def cJobExp0 : Job := { baseJob with RetryBackoff := "exponential" }

/-- An exponential-backoff record with `Retry = 3 < MaxRetry = 5`. -/
def cJobExp3 : Job :=
  { baseJob with RetryBackoff := "exponential", Retry := 3, MaxRetry := 5 }

/-- A record whose admission allows no retries (`Retry = MaxRetry = 0`). -/
def cJobNoRetry : Job := { baseJob with Retry := 0, MaxRetry := 0 }

/-- C2: handler failure with `Retry >= MaxRetry` sets `State = Failed`,
stamps `Completed` with the current time, leaves `Retry` unchanged,
persists the record via `Update`, and the record does not return to
`Waiting` on this branch. -/
theorem process_exhausted_failed
    (tm : String → Option Handler) (clock : Nat → Int)
    (update : Job → Option String) (backoff : Int → Int)
    (working : String → Int) (job : Job) (p : Handler) (e : String)
    (htm : tm job.Topic = some p) (hp : p job = some e)
    (hge : job.MaxRetry ≤ job.Retry) :
    (process tm clock update backoff working job).job.State = JobState.Failed ∧
    (process tm clock update backoff working job).job.Completed = some (clock 0) ∧
    (process tm clock update backoff working job).job.Retry = job.Retry ∧
    (process tm clock update backoff working job).updated =
      some (process tm clock update backoff working job).job ∧
    (process tm clock update backoff working job).job.State ≠ JobState.Waiting := by
  simp [process, htm, hp, hge]

/-- Witness for C2 at scenario D of the spec
(`Retry = 3, MaxRetry = 3`, handler fails). -/
theorem process_exhausted_failed_witness :
    (process cTmFail cClock cUpdateOk cBackoff cWorking cJobExhausted).job.State = JobState.Failed ∧
    (process cTmFail cClock cUpdateOk cBackoff cWorking cJobExhausted).job.Completed = some (cClock 0) ∧
    (process cTmFail cClock cUpdateOk cBackoff cWorking cJobExhausted).job.Retry = cJobExhausted.Retry ∧
    (process cTmFail cClock cUpdateOk cBackoff cWorking cJobExhausted).updated =
      some (process cTmFail cClock cUpdateOk cBackoff cWorking cJobExhausted).job ∧
    (process cTmFail cClock cUpdateOk cBackoff cWorking cJobExhausted).job.State ≠ JobState.Waiting :=
  process_exhausted_failed cTmFail cClock cUpdateOk cBackoff cWorking cJobExhausted
    cHandlerFail "boom" rfl rfl (by decide)

/-- C3: handler success sets `State = Succeeded`, stamps `Completed` with
the current time, persists the record via `Update`, and leaves `Retry`,
`After` and `Priority` unchanged. -/
theorem process_success
    (tm : String → Option Handler) (clock : Nat → Int)
    (update : Job → Option String) (backoff : Int → Int)
    (working : String → Int) (job : Job) (p : Handler)
    (htm : tm job.Topic = some p) (hp : p job = none) :
    (process tm clock update backoff working job).job.State = JobState.Succeeded ∧
    (process tm clock update backoff working job).job.Completed = some (clock 0) ∧
    (process tm clock update backoff working job).updated =
      some (process tm clock update backoff working job).job ∧
    (process tm clock update backoff working job).job.Retry = job.Retry ∧
    (process tm clock update backoff working job).job.After = job.After ∧
    (process tm clock update backoff working job).job.Priority = job.Priority := by
  simp [process, htm, hp]

/-- Witness for C3: a successful handler run on the base record. -/
theorem process_success_witness :
    (process cTmOk cClock cUpdateOk cBackoff cWorking baseJob).job.State = JobState.Succeeded ∧
    (process cTmOk cClock cUpdateOk cBackoff cWorking baseJob).job.Completed = some (cClock 0) ∧
    (process cTmOk cClock cUpdateOk cBackoff cWorking baseJob).updated =
      some (process cTmOk cClock cUpdateOk cBackoff cWorking baseJob).job ∧
    (process cTmOk cClock cUpdateOk cBackoff cWorking baseJob).job.Retry = baseJob.Retry ∧
    (process cTmOk cClock cUpdateOk cBackoff cWorking baseJob).job.After = baseJob.After ∧
    (process cTmOk cClock cUpdateOk cBackoff cWorking baseJob).job.Priority = baseJob.Priority :=
  process_success cTmOk cClock cUpdateOk cBackoff cWorking baseJob cHandlerOk rfl rfl

/-- C6: when no handler is registered for the topic, `process` returns the
"no processor" error, the record is bitwise unchanged, `Update` is not
called, and the handler is never invoked. -/
theorem process_no_processor
    (tm : String → Option Handler) (clock : Nat → Int)
    (update : Job → Option String) (backoff : Int → Int)
    (working : String → Int) (job : Job)
    (htm : tm job.Topic = none) :
    (process tm clock update backoff working job).err = some (noProcessorMsg job.Topic) ∧
    (process tm clock update backoff working job).job = job ∧
    (process tm clock update backoff working job).updated = none ∧
    (process tm clock update backoff working job).handlerInvoked = false := by
  simp [process, htm]

/-- Witness for C6 at scenario A of the spec: no handler registered. -/
theorem process_no_processor_witness :
    (process cTmNone cClock cUpdateOk cBackoff cWorking baseJob).err =
      some (noProcessorMsg baseJob.Topic) ∧
    (process cTmNone cClock cUpdateOk cBackoff cWorking baseJob).job = baseJob ∧
    (process cTmNone cClock cUpdateOk cBackoff cWorking baseJob).updated = none ∧
    (process cTmNone cClock cUpdateOk cBackoff cWorking baseJob).handlerInvoked = false :=
  process_no_processor cTmNone cClock cUpdateOk cBackoff cWorking baseJob rfl

/-- C10: a record with `MaxRetry = 0` and `Retry = 0` whose handler fails
goes directly to `Failed` with `Completed` stamped and is persisted; the
retry branch is never taken, so within one delivery the handler is invoked
exactly once (the single invocation recorded by `handlerInvoked`). -/
theorem process_no_retry_budget
    (tm : String → Option Handler) (clock : Nat → Int)
    (update : Job → Option String) (backoff : Int → Int)
    (working : String → Int) (job : Job) (p : Handler) (e : String)
    (htm : tm job.Topic = some p) (hp : p job = some e)
    (hm : job.MaxRetry = 0) (hr : job.Retry = 0) :
    (process tm clock update backoff working job).job.State = JobState.Failed ∧
    (process tm clock update backoff working job).job.Completed = some (clock 0) ∧
    (process tm clock update backoff working job).updated =
      some (process tm clock update backoff working job).job ∧
    (process tm clock update backoff working job).job.State ≠ JobState.Waiting ∧
    (process tm clock update backoff working job).handlerInvoked = true := by
  have hge : job.MaxRetry ≤ job.Retry := by rw [hm, hr]
  simp [process, htm, hp, hge]

/-- Witness for C10: `Retry = MaxRetry = 0`, failing handler. -/
theorem process_no_retry_budget_witness :
    (process cTmFail cClock cUpdateOk cBackoff cWorking cJobNoRetry).job.State = JobState.Failed ∧
    (process cTmFail cClock cUpdateOk cBackoff cWorking cJobNoRetry).job.Completed = some (cClock 0) ∧
    (process cTmFail cClock cUpdateOk cBackoff cWorking cJobNoRetry).updated =
      some (process cTmFail cClock cUpdateOk cBackoff cWorking cJobNoRetry).job ∧
    (process cTmFail cClock cUpdateOk cBackoff cWorking cJobNoRetry).job.State ≠ JobState.Waiting ∧
    (process cTmFail cClock cUpdateOk cBackoff cWorking cJobNoRetry).handlerInvoked = true :=
  process_no_retry_budget cTmFail cClock cUpdateOk cBackoff cWorking cJobNoRetry
    cHandlerFail "boom" rfl rfl rfl rfl

/-- The truncated power-of-two factor is never negative. -/
theorem pow2floor_nonneg (e : Int) : 0 ≤ pow2floor e := by
  unfold pow2floor
  split
  · exact pow_nonneg (by norm_num) _
  · exact le_refl 0

/-- With a nonnegative base wait, the computed retry wait is nonnegative. -/
theorem retryWaitOf_nonneg (job : Job) (hw : 0 ≤ job.RetryWait) :
    0 ≤ retryWaitOf job := by
  unfold retryWaitOf
  split
  · exact mul_nonneg hw (pow2floor_nonneg _)
  · exact hw

/-- Counterexample to C1 as stated: scenario B of the spec
(exponential backoff, pre-increment `Retry = 0 < MaxRetry`,
`RetryWait = 1000`, failing handler) takes the retry branch, yet the
resulting `After` equals the branch's current-time sample — it is not
strictly greater than the time of the failure. -/
theorem process_retry_after_not_strict_cex :
    cJobExp0.Retry < cJobExp0.MaxRetry ∧
    cHandlerFail cJobExp0 = some "boom" ∧
    (process cTmFail cClock cUpdateOk cBackoff cWorking cJobExp0).job.State = JobState.Waiting ∧
    (process cTmFail cClock cUpdateOk cBackoff cWorking cJobExp0).job.After = cClock 0 ∧
    ¬ cClock 0 < (process cTmFail cClock cUpdateOk cBackoff cWorking cJobExp0).job.After := by
  refine ⟨by decide, rfl, rfl, by decide, by decide⟩

/-- C1 (amended): handler failure with `Retry < MaxRetry` leaves
`State = Waiting`, increments `Retry` by exactly 1, persists via `Update`,
and sets `After` to the failure-time sample plus the computed wait: with
`RetryWait ≥ 0` this makes `After ≥` the time of failure, and strictly
greater exactly when the computed wait is positive (the exponential branch
with pre-increment `Retry = 0` computes a zero wait). -/
theorem process_retry_waiting
    (tm : String → Option Handler) (clock : Nat → Int)
    (update : Job → Option String) (backoff : Int → Int)
    (working : String → Int) (job : Job) (p : Handler) (e : String)
    (htm : tm job.Topic = some p) (hp : p job = some e)
    (hlt : job.Retry < job.MaxRetry) (hw : 0 ≤ job.RetryWait) :
    (process tm clock update backoff working job).job.State = JobState.Waiting ∧
    (process tm clock update backoff working job).job.Retry = job.Retry + 1 ∧
    (process tm clock update backoff working job).job.After = clock 0 + retryWaitOf job ∧
    clock 0 ≤ (process tm clock update backoff working job).job.After ∧
    (0 < retryWaitOf job →
      clock 0 < (process tm clock update backoff working job).job.After) ∧
    (process tm clock update backoff working job).updated =
      some (process tm clock update backoff working job).job := by
  have hnot : ¬ job.MaxRetry ≤ job.Retry := not_le.mpr hlt
  simp only [process, htm, hp, if_neg hnot]
  refine ⟨trivial, trivial, trivial, ?_, ?_, trivial⟩
  · exact le_add_of_nonneg_right (retryWaitOf_nonneg job hw)
  · intro h
    exact lt_add_of_pos_right _ h

/-- Witness for the amended C1 at scenario C of the spec
(`Retry = 2, MaxRetry = 3`, flat backoff, `RetryWait = 1000`). -/
theorem process_retry_waiting_witness :
    (process cTmFail cClock cUpdateOk cBackoff cWorking cJobRetry2).job.State = JobState.Waiting ∧
    (process cTmFail cClock cUpdateOk cBackoff cWorking cJobRetry2).job.Retry = cJobRetry2.Retry + 1 ∧
    (process cTmFail cClock cUpdateOk cBackoff cWorking cJobRetry2).job.After =
      cClock 0 + retryWaitOf cJobRetry2 ∧
    cClock 0 ≤ (process cTmFail cClock cUpdateOk cBackoff cWorking cJobRetry2).job.After ∧
    (0 < retryWaitOf cJobRetry2 →
      cClock 0 < (process cTmFail cClock cUpdateOk cBackoff cWorking cJobRetry2).job.After) ∧
    (process cTmFail cClock cUpdateOk cBackoff cWorking cJobRetry2).updated =
      some (process cTmFail cClock cUpdateOk cBackoff cWorking cJobRetry2).job :=
  process_retry_waiting cTmFail cClock cUpdateOk cBackoff cWorking cJobRetry2
    cHandlerFail "boom" rfl rfl (by decide) (by decide)

/-- C9: on the retry branch with exponential backoff and pre-increment
`Retry = 0`, the truncated factor `int64(2^(-1))` is `0`, so the added
wait is exactly `0` and `After` equals the branch's current-time sample. -/
theorem process_exponential_first_retry_zero_wait
    (tm : String → Option Handler) (clock : Nat → Int)
    (update : Job → Option String) (backoff : Int → Int)
    (working : String → Int) (job : Job) (p : Handler) (e : String)
    (htm : tm job.Topic = some p) (hp : p job = some e)
    (hexp : job.RetryBackoff = "exponential") (hr : job.Retry = 0)
    (hlt : job.Retry < job.MaxRetry) :
    retryWaitOf job = 0 ∧
    (process tm clock update backoff working job).job.After = clock 0 := by
  have hwait : retryWaitOf job = 0 := by
    unfold retryWaitOf
    rw [hexp, hr]
    norm_num [pow2floor]
  have hnot : ¬ job.MaxRetry ≤ job.Retry := not_le.mpr hlt
  refine ⟨hwait, ?_⟩
  simp only [process, htm, hp, if_neg hnot, hwait, add_zero]

/-- Witness for C9 at scenario B of the spec. -/
theorem process_exponential_first_retry_zero_wait_witness :
    retryWaitOf cJobExp0 = 0 ∧
    (process cTmFail cClock cUpdateOk cBackoff cWorking cJobExp0).job.After = cClock 0 :=
  process_exponential_first_retry_zero_wait cTmFail cClock cUpdateOk cBackoff cWorking
    cJobExp0 cHandlerFail "boom" rfl rfl rfl rfl (by decide)

/-- Counterexample to C4 as stated: at pre-increment `Retry = 0` and
`RetryWait = 1000` the claim's literal added wait `1000 * 2^(0-1) = 500`
differs from what the code computes — the `int64` conversion truncates
`2^(-1)` to `0`, so the wait actually added is `0`. -/
theorem process_exponential_claimed_wait_cex :
    cJobExp0.RetryBackoff = "exponential" ∧
    cJobExp0.Retry = 0 ∧
    cJobExp0.RetryWait = 1000 ∧
    ¬ (((process cTmFail cClock cUpdateOk cBackoff cWorking cJobExp0).job.After - cClock 0 : ℤ) : ℚ) =
      (1000 : ℚ) * (2 : ℚ) ^ ((0 : ℤ) - 1) := by
  refine ⟨rfl, rfl, rfl, ?_⟩
  have h : ((process cTmFail cClock cUpdateOk cBackoff cWorking cJobExp0).job.After - cClock 0 : ℤ) = 0 := by
    decide
  rw [h]
  norm_num

/-- C4 (amended): on the retry branch with exponential backoff the wait
added to the current time is `RetryWait * 2^(Retry-1)` for pre-increment
`Retry ≥ 1`; for `Retry ≤ 0` (in particular the first retry, `Retry = 0`)
the truncated factor `int64(2^(Retry-1))` is `0`, so the added wait is `0`
rather than the literal `RetryWait * 2^(-1)`. (The bound `Retry ≤ 63`
keeps the exponent in the range where the Go float-to-int64 conversion is
exact.) -/
theorem process_exponential_wait
    (tm : String → Option Handler) (clock : Nat → Int)
    (update : Job → Option String) (backoff : Int → Int)
    (working : String → Int) (job : Job) (p : Handler) (e : String)
    (htm : tm job.Topic = some p) (hp : p job = some e)
    (hlt : job.Retry < job.MaxRetry)
    (hexp : job.RetryBackoff = "exponential") (hub : job.Retry ≤ 63) :
    (1 ≤ job.Retry →
      (process tm clock update backoff working job).job.After =
        clock 0 + job.RetryWait * 2 ^ (job.Retry - 1).toNat) ∧
    (job.Retry ≤ 0 →
      (process tm clock update backoff working job).job.After = clock 0) := by
  have hnot : ¬ job.MaxRetry ≤ job.Retry := not_le.mpr hlt
  have hafter : (process tm clock update backoff working job).job.After =
      clock 0 + retryWaitOf job := by
    simp only [process, htm, hp, if_neg hnot]
  constructor
  · intro h1
    have hnn : 0 ≤ job.Retry - 1 := by omega
    rw [hafter]
    unfold retryWaitOf pow2floor
    rw [hexp, if_pos rfl, if_pos hnn]
  · intro h0
    have hneg : ¬ 0 ≤ job.Retry - 1 := by omega
    rw [hafter]
    unfold retryWaitOf pow2floor
    rw [hexp, if_pos rfl, if_neg hneg, mul_zero, add_zero]

/-- Witness for the amended C4 at pre-increment `Retry = 3`:
the added wait is `1000 * 2^2 = 4000`. -/
theorem process_exponential_wait_witness :
    (1 ≤ cJobExp3.Retry →
      (process cTmFail cClock cUpdateOk cBackoff cWorking cJobExp3).job.After =
        cClock 0 + cJobExp3.RetryWait * 2 ^ (cJobExp3.Retry - 1).toNat) ∧
    (cJobExp3.Retry ≤ 0 →
      (process cTmFail cClock cUpdateOk cBackoff cWorking cJobExp3).job.After = cClock 0) :=
  process_exponential_wait cTmFail cClock cUpdateOk cBackoff cWorking cJobExp3
    cHandlerFail "boom" rfl rfl (by decide) rfl (by decide)

/-- On every exit path, the in-flight counter map after `process` is the
deferred single decrement at the job's `Rank`. -/
theorem process_working_eq (tm : String → Option Handler) (clock : Nat → Int)
    (update : Job → Option String) (backoff : Int → Int)
    (working : String → Int) (job : Job) :
    (process tm clock update backoff working job).working =
      decWorking working job.Rank := by
  unfold process
  split
  · rfl
  · split
    · split <;> rfl
    · rfl

/-- C5: on every exit path of `process` (resolution error, terminal
failure, retry, success — with either `Update` outcome), the in-flight
counter entry at the job's `Rank` is decremented by exactly one, and every
other `Rank`'s entry is unchanged. -/
theorem process_decrements_rank_once
    (tm : String → Option Handler) (clock : Nat → Int)
    (update : Job → Option String) (backoff : Int → Int)
    (working : String → Int) (job : Job) :
    (process tm clock update backoff working job).working job.Rank =
      working job.Rank - 1 ∧
    ∀ q : String, q ≠ job.Rank →
      (process tm clock update backoff working job).working q = working q := by
  rw [process_working_eq]
  constructor
  · simp [decWorking]
  · intro q hq
    simp [decWorking, hq]

/-- Witness for C5: at the concrete fixture the entry at `"rankA"` drops
from 2 to 1 and the entry at `"rankB"` stays 2. -/
theorem process_decrements_rank_once_witness :
    (process cTmFail cClock cUpdateOk cBackoff cWorking baseJob).working baseJob.Rank =
      cWorking baseJob.Rank - 1 ∧
    (process cTmFail cClock cUpdateOk cBackoff cWorking baseJob).working "rankB" =
      cWorking "rankB" :=
  ⟨(process_decrements_rank_once cTmFail cClock cUpdateOk cBackoff cWorking baseJob).1,
   (process_decrements_rank_once cTmFail cClock cUpdateOk cBackoff cWorking baseJob).2
     "rankB" (by decide)⟩

/-- C7: for a record entering `process` in state `Waiting` with
`Completed` unset, the resulting record has `Completed` set exactly when
its resulting state is `Succeeded` or `Failed`; in particular `Completed`
stays unset on the retry and resolution-error paths, where the state stays
`Waiting`. -/
theorem process_completed_iff_terminal
    (tm : String → Option Handler) (clock : Nat → Int)
    (update : Job → Option String) (backoff : Int → Int)
    (working : String → Int) (job : Job)
    (hstate : job.State = JobState.Waiting) (hc : job.Completed = none) :
    ((process tm clock update backoff working job).job.Completed ≠ none ↔
      ((process tm clock update backoff working job).job.State = JobState.Succeeded ∨
       (process tm clock update backoff working job).job.State = JobState.Failed)) ∧
    ((process tm clock update backoff working job).job.State = JobState.Waiting →
      (process tm clock update backoff working job).job.Completed = none) := by
  unfold process
  split
  · simp [hstate, hc]
  · split
    · split
      · simp
      · simp [hc]
    · simp

/-- Witness for C7 on the retry path: `Completed` stays unset while the
state stays `Waiting`. -/
theorem process_completed_iff_terminal_witness :
    ((process cTmFail cClock cUpdateOk cBackoff cWorking cJobRetry2).job.Completed ≠ none ↔
      ((process cTmFail cClock cUpdateOk cBackoff cWorking cJobRetry2).job.State = JobState.Succeeded ∨
       (process cTmFail cClock cUpdateOk cBackoff cWorking cJobRetry2).job.State = JobState.Failed)) ∧
    ((process cTmFail cClock cUpdateOk cBackoff cWorking cJobRetry2).job.State = JobState.Waiting →
      (process cTmFail cClock cUpdateOk cBackoff cWorking cJobRetry2).job.Completed = none) :=
  process_completed_iff_terminal cTmFail cClock cUpdateOk cBackoff cWorking cJobRetry2 rfl rfl

/-- The run loop produces exactly one result per consumed record. -/
theorem run_length (tm : String → Option Handler) (update : Job → Option String)
    (backoff : Int → Int) :
    ∀ (working : String → Int) (inputs : List (Job × (Nat → Int))),
      (run tm update backoff working inputs).1.length = inputs.length
  | _, [] => rfl
  | working, (job, clock) :: rest => by
      simp [run, run_length tm update backoff
        (process tm clock update backoff working job).working rest]

/-- C8: whenever `process` hands a record to the durable store's `Update`
and `Update` returns an error, `process` returns that same error, the
in-memory record keeps its mutations (the final record is exactly the one
passed to `Update`, not rolled back), the "succeeded" signal is not
emitted, and the run loop logs the job's ID with the error and continues
consuming every remaining record. -/
theorem process_update_error_propagates
    (tm : String → Option Handler) (clock : Nat → Int)
    (update : Job → Option String) (backoff : Int → Int)
    (working : String → Int) (job : Job)
    (rest : List (Job × (Nat → Int))) (u : Job) (e : String)
    (hu : (process tm clock update backoff working job).updated = some u)
    (he : update u = some e) :
    (process tm clock update backoff working job).err = some e ∧
    (process tm clock update backoff working job).job = u ∧
    Signal.succeeded ∉ (process tm clock update backoff working job).signals ∧
    (run tm update backoff working ((job, clock) :: rest)).2 =
      logLine job.ID e ::
        (run tm update backoff
          (process tm clock update backoff working job).working rest).2 ∧
    (run tm update backoff working ((job, clock) :: rest)).1.length =
      rest.length + 1 := by
  have key : (process tm clock update backoff working job).err = some e ∧
      (process tm clock update backoff working job).job = u ∧
      Signal.succeeded ∉ (process tm clock update backoff working job).signals := by
    revert hu
    unfold process
    split
    · intro hu
      simp at hu
    · split
      · split
        · intro hu
          simp only [Option.some.injEq] at hu
          subst hu
          exact ⟨he, rfl, by simp⟩
        · intro hu
          simp only [Option.some.injEq] at hu
          subst hu
          exact ⟨he, rfl, by simp⟩
      · intro hu
        simp only [Option.some.injEq] at hu
        subst hu
        exact ⟨he, rfl, by simp [he]⟩
  refine ⟨key.1, key.2.1, key.2.2, ?_, ?_⟩
  · simp [run, key.1]
  · simp [run, run_length]

/-- Witness for C8: a successful handler run whose persistence fails;
`process` returns the store's error, the record stays `Succeeded` in
memory, no "succeeded" signal fires, and the run loop logs and finishes
the (empty) remainder of the feed. -/
theorem process_update_error_propagates_witness :
    (process cTmOk cClock cUpdateErr cBackoff cWorking baseJob).err = some "store down" ∧
    (process cTmOk cClock cUpdateErr cBackoff cWorking baseJob).job =
      { baseJob with State := JobState.Succeeded, Completed := some 100 } ∧
    Signal.succeeded ∉ (process cTmOk cClock cUpdateErr cBackoff cWorking baseJob).signals ∧
    (run cTmOk cUpdateErr cBackoff cWorking ((baseJob, cClock) :: [])).2 =
      logLine baseJob.ID "store down" ::
        (run cTmOk cUpdateErr cBackoff
          (process cTmOk cClock cUpdateErr cBackoff cWorking baseJob).working []).2 ∧
    (run cTmOk cUpdateErr cBackoff cWorking ((baseJob, cClock) :: [])).1.length =
      ([] : List (Job × (Nat → Int))).length + 1 :=
  process_update_error_propagates cTmOk cClock cUpdateErr cBackoff cWorking baseJob []
    { baseJob with State := JobState.Succeeded, Completed := some 100 } "store down"
    rfl rfl

end Jobpool
